import Mathlib

/-!
Shallow embedding of the across-protocol frontend core:
the transfer-tracking session (src/src/views/Transactions/useTransactionsView.ts)
and the add-liquidity transaction lifecycle (src/unnamed/part_001,
AddLiquidityForm).  State updates of the React hooks are modelled as pure
functions on explicit state records; requests issued to external clients
(the transfer-index client, the pool client) are returned as data.
-/

namespace TransactionsView

/-- Opaque transfer record; only identity matters for the claims. -/
structure Transfer where
  id : Nat
deriving DecidableEq, Repr

/-- The transfer-index client view consumed by the hook:
`getFilledTransfers` / `getPendingTransfers` keyed by depositor address. -/
structure TxClient where
  getFilledTransfers : String → List Transfer
  getPendingTransfers : String → List Transfer

/-- Imperative requests the hook issues to the transfer-index client. -/
inductive ClientReq where
  | startFetching (account : String)
  | stopFetching (account : String)
deriving DecidableEq, Repr

/-- The hook state of `useTransactionsView` relevant to the claims:
the connection account, the two snapshots, the loading flag, the `timer`
state variable, and the set of currently armed timeout handles
(`armedTimers` tracks which `setTimeout` handles are live). -/
structure ViewState where
  account : Option String
  rawFilledTx : List Transfer
  rawOngoingTx : List Transfer
  initialLoading : Bool
  timer : Option Nat
  armedTimers : List Nat
deriving DecidableEq, Repr

/-- `MAX_TIME_FOR_FETCHING_TX = 5 * 60 * 1000` (milliseconds). -/
def MAX_TIME_FOR_FETCHING_TX : Nat := 5 * 60 * 1000

/-- `DEFAULT_TX_HISTORY_PAGE_SIZE = 10`. -/
def DEFAULT_TX_HISTORY_PAGE_SIZE : Int := 10

/-- JavaScript `x || d` for a `number | undefined` value: `undefined` and
`0` are falsy and yield the default, every other number is returned. -/
def jsOrDefault (x : Option Int) (d : Int) : Int :=
  match x with
  | none => d
  | some v => if v = 0 then d else v

/-- `useState(getTxHistoryPageSize() || DEFAULT_TX_HISTORY_PAGE_SIZE)`:
the initial page size from the persisted store value. -/
def initialPageSize (stored : Option Int) : Int :=
  jsOrDefault stored DEFAULT_TX_HISTORY_PAGE_SIZE

/-- The `TransfersUpdated` listener (useTransactionsView.ts lines 40-51):
clears `initialLoading` and replaces both snapshots with the client's
filled/pending lists for the update's own `data.depositorAddr`.  The
source handler consults no session account. -/
def onTransfersUpdated (txClient : TxClient) (depositorAddr : String)
    (s : ViewState) : ViewState :=
  { s with
    initialLoading := false
    rawFilledTx := txClient.getFilledTransfers depositorAddr
    rawOngoingTx := txClient.getPendingTransfers depositorAddr }

/-- Result of running the account-keyed effect body (lines 56-70):
the new hook state, the client requests issued, whether the effect threw
past its own handlers, and whether the catch branch logged an error. -/
structure StartResult where
  state : ViewState
  reqs : List ClientReq
  crashed : Bool
  errorLogged : Bool
deriving Repr

/-- The account-keyed effect body (lines 56-70), run when `account` and
`txClient` are present: sets `initialLoading := true`, issues
`startFetchingTransfers(account)` whose rejection is caught by the
`.catch` handler (which only calls `console.error`), arms a new timeout
handle `newTimerId`, and stores it in the `timer` state.  `fetchFails`
says whether the `startFetchingTransfers` promise rejects. -/
def startEffect (account : String) (newTimerId : Nat) (fetchFails : Bool)
    (s : ViewState) : StartResult :=
  { state :=
      { s with
        initialLoading := true
        timer := some newTimerId
        armedTimers := newTimerId :: s.armedTimers }
    reqs := [ClientReq.startFetching account]
    crashed := false
    errorLogged := fetchFails }

/-- Cleanup of the account-keyed effect (lines 72-78), run with the
previous render's `account` when it was present: issues
`stopFetchingTransfers(account)` and clears both snapshots.  It does not
touch the timer. -/
def accountCleanup (account : String) (s : ViewState) :
    ViewState × List ClientReq :=
  ({ s with rawFilledTx := [], rawOngoingTx := [] },
   [ClientReq.stopFetching account])

/-- Cleanup of the timer-keyed effect (lines 81-89): clears the timeout
handle captured from the previous render's `timer` state, if any. -/
def timerCleanup (oldTimer : Option Nat) (s : ViewState) : ViewState :=
  match oldTimer with
  | some t => { s with armedTimers := s.armedTimers.filter (fun x => x != t) }
  | none => s

/-- The deadline timeout callback (lines 65-68): after
`MAX_TIME_FOR_FETCHING_TX` it issues `stopFetchingTransfers(account)` and
sets `timer` to `undefined`.  The fired handle is no longer armed.  It
touches neither snapshot. -/
def deadlineFire (account : String) (tid : Nat) (s : ViewState) :
    ViewState × List ClientReq :=
  ({ s with
      armedTimers := s.armedTimers.filter (fun x => x != tid)
      timer := none },
   [ClientReq.stopFetching account])

/-- The intermediate states of an account change from `oldAcct` to
`newAcct`, in the order React runs them: (1) the account-keyed cleanup
(closed over `oldAcct`) stops fetching and clears snapshots; (2) the
account-keyed effect body starts fetching for `newAcct` and arms the new
timeout `newTid`; (3) only after `setTimer(newTid)` commits does the
timer-keyed cleanup run, clearing the handle captured from the previous
render (`s.timer`). -/
structure AccountChangeTrace where
  afterAccountCleanup : ViewState
  cleanupReqs : List ClientReq
  afterStart : ViewState
  startReqs : List ClientReq
  afterTimerCleanup : ViewState
deriving Repr

/-- Scripted account-change sequence derived from the hook's effect
structure (see `AccountChangeTrace`). -/
def accountChange (oldAcct newAcct : String) (newTid : Nat)
    (s : ViewState) : AccountChangeTrace :=
  let sIn : ViewState := { s with account := some newAcct }
  let c1 := accountCleanup oldAcct sIn
  let r2 := startEffect newAcct newTid false c1.1
  let s3 := timerCleanup s.timer r2.state
  { afterAccountCleanup := c1.1
    cleanupReqs := c1.2
    afterStart := r2.state
    startReqs := r2.reqs
    afterTimerCleanup := s3 }

/-- Unmount: React runs both cleanups in declaration order — the
account-keyed cleanup (stop fetching, clear snapshots) then the
timer-keyed cleanup (clear the current handle). -/
def unmount (oldAcct : String) (s : ViewState) : ViewState × List ClientReq :=
  let c1 := accountCleanup oldAcct s
  (timerCleanup s.timer c1.1, c1.2)

/-- A client used to exhibit concrete behaviour: account `0xA` has one
filled transfer, every other account has none. -/
def cexClient : TxClient :=
  { getFilledTransfers := fun a => if a = "0xA" then [⟨1⟩] else []
    getPendingTransfers := fun _ => [] }

/-- State of a freshly started session for account `0xB`: snapshots were
cleared by the switch away from `0xA`. -/
def sessionBState : ViewState :=
  { account := some "0xB"
    rawFilledTx := []
    rawOngoingTx := []
    initialLoading := true
    timer := some 7
    armedTimers := [7] }

/-- State of a running session for account `0xA` with timeout handle 0
armed. -/
def sessionAState : ViewState :=
  { account := some "0xA"
    rawFilledTx := []
    rawOngoingTx := []
    initialLoading := true
    timer := some 0
    armedTimers := [0] }

end TransactionsView

namespace AddLiquidity

/-- Is `c` a decimal digit. -/
def isDigitChar (c : Char) : Bool := decide ('0' ≤ c) && decide (c ≤ '9')

/-- Value of a digit string (most significant first). -/
def digitsToNat (cs : List Char) : Nat :=
  cs.foldl (fun n c => n * 10 + (c.toNat - 48)) 0

/-- Parse an unsigned plain decimal numeral, as accepted both by the
JavaScript `Number` coercion (restricted to plain decimal numerals) and
by the unit-conversion utility: an integer digit-run optionally followed
by a dot and a fractional digit-run.  Returns
(integer part, fractional part, number of fractional digits). -/
def parseDecChars (cs : List Char) : Option (Nat × Nat × Nat) :=
  match cs.splitOn '.' with
  | [ip] =>
    if !ip.isEmpty && ip.all isDigitChar then some (digitsToNat ip, 0, 0)
    else none
  | [ip, fp] =>
    if !ip.isEmpty && !fp.isEmpty && ip.all isDigitChar && fp.all isDigitChar
    then some (digitsToNat ip, digitsToNat fp, fp.length)
    else none
  | _ => none

/-- String front-end of `parseDecChars`. -/
def parseDecimalString (s : String) : Option (Nat × Nat × Nat) :=
  parseDecChars s.data

/-- `Number(amount) > 0`, the guard of the submission path, on plain
decimal numeral strings: non-numeric strings coerce to NaN and fail the
comparison. -/
def jsNumberPos (s : String) : Bool :=
  match parseDecimalString s with
  | some (i, f, _) => decide (0 < i + f)
  | none => false

/-- Modelled from the spec: `toWeiSafe` (utils/weiMath, not under src/)
converts an amount string to smallest units using the asset's declared
decimal precision and rejects inputs that are not valid unsigned decimal
numeric strings (also when the string has more fractional digits than
the precision allows). -/
def toWeiSafe (s : String) (decimals : Nat) : Option Nat :=
  match parseDecimalString s with
  | some (i, f, fl) =>
    if fl ≤ decimals then some (i * 10 ^ decimals + f * 10 ^ (decimals - fl))
    else none
  | none => none

/-- `MAX_UINT_VAL = ethers.constants.MaxUint256`, i.e. 2^256 - 1. -/
def MAX_UINT_VAL : Nat := 2 ^ 256 - 1

/-- `INFINITE_APPROVAL_AMOUNT = MAX_UINT_VAL`. -/
def INFINITE_APPROVAL_AMOUNT : Nat := MAX_UINT_VAL

/-- `checkIfUserHasToApprove` (part_001 lines 59-73): with a signer and
an account present, queries `token.allowance(account, bridgeAddress)`;
on success it sets the flag to `true` when the allowance is below the
balance, and otherwise leaves the flag alone (there is no `else` branch
setting it `false`); a query error is caught and logged, leaving the
flag alone.  `allowanceResult = none` models the query throwing. -/
def checkIfUserHasToApprove (signerPresent accountPresent : Bool)
    (allowanceResult : Option Nat) (balance : Nat)
    (userNeedsToApprove : Bool) : Bool :=
  if signerPresent && accountPresent then
    match allowanceResult with
    | some allowance =>
      if allowance < balance then true else userNeedsToApprove
    | none => userNeedsToApprove
  else userNeedsToApprove

/-- The effect guarding the allowance check (part_001 lines 75-77):
`if (isConnected && symbol !== "ETH") checkIfUserHasToApprove()`. -/
def allowanceEffect (isConnected : Bool) (symbol : String)
    (signerPresent accountPresent : Bool) (allowanceResult : Option Nat)
    (balance : Nat) (userNeedsToApprove : Bool) : Bool :=
  if isConnected && (symbol != "ETH") then
    checkIfUserHasToApprove signerPresent accountPresent allowanceResult
      balance userNeedsToApprove
  else userNeedsToApprove

/-- The approval request built by `handleApprove` (lines 79-84). -/
structure ApproveRequest where
  amount : Nat
  spender : String
deriving DecidableEq, Repr

/-- `handleApprove` calls `approve` with
`amount: INFINITE_APPROVAL_AMOUNT, spender: bridgeAddress`. -/
def handleApproveRequest (bridgeAddress : String) : ApproveRequest :=
  { amount := INFINITE_APPROVAL_AMOUNT, spender := bridgeAddress }

/-- The action `approveOrPoolTransactionHandler` (lines 102-158)
dispatches to. `conversionStuck` marks `toWeiSafe` throwing outside the
try block (the exception leaves the handler and is caught by the
button's own catch). -/
inductive HandlerAction where
  | initWallet
  | approveReq (req : ApproveRequest)
  | addEthLiquidity (weiAmount : Nat)
  | addTokenLiquidity (weiAmount : Nat)
  | conversionStuck
  | noop
deriving DecidableEq, Repr

/-- `approveOrPoolTransactionHandler` (lines 102-158): without a
provider it starts wallet onboarding; connected and needing approval it
runs `handleApprove`; connected with `Number(amount) > 0` and a signer
it converts the amount with `toWeiSafe(amount, decimals)` and calls
`addEthLiquidity` when the symbol is ETH, `addTokenLiquidity` otherwise;
in every other case it does nothing. -/
def approveOrPoolTransactionHandler (providerPresent isConnected
    userNeedsToApprove signerPresent : Bool) (amount : String)
    (decimals : Nat) (symbol bridgeAddress : String) : HandlerAction :=
  if !providerPresent then HandlerAction.initWallet
  else if isConnected && userNeedsToApprove then
    HandlerAction.approveReq (handleApproveRequest bridgeAddress)
  else if isConnected && jsNumberPos amount && signerPresent then
    match toWeiSafe amount decimals with
    | some w =>
      if symbol = "ETH" then HandlerAction.addEthLiquidity w
      else HandlerAction.addTokenLiquidity w
    | none => HandlerAction.conversionStuck
  else HandlerAction.noop

/-- Does the action call one of the pool-liquidity entry points. -/
def isLiquidityCall : HandlerAction → Bool
  | HandlerAction.addEthLiquidity _ => true
  | HandlerAction.addTokenLiquidity _ => true
  | _ => false

/-- A call against the pool/account data source. -/
inductive PoolCall where
  | updatePool (bridge : String)
  | updateUser (account bridge : String)
deriving DecidableEq, Repr

/-- A batch of pool calls scheduled to run after `delayMs`. -/
structure TimerTask where
  delayMs : Nat
  calls : List PoolCall
deriving DecidableEq, Repr

/-- Outcome of the `txConfirmed` listener (lines 135-147). -/
structure ConfirmedOutcome where
  txSubmitted : Bool
  showSuccess : Bool
  depositUrl : String
  immediateCalls : List PoolCall
  scheduledTasks : List TimerTask
deriving DecidableEq, Repr

/-- The `txConfirmed` listener registered for a submitted transaction
hash (lines 135-147): clears `txSubmitted`, sets `showSuccess`, exposes
the etherscan deposit URL for the hash, and schedules — via
`setTimeout(..., 30000)` — `updatePool(bridgeAddress)` plus, when the
closed-over account is present, `updateUser(acc, bridgeAddress)`.  No
pool call is made directly in the listener body. -/
def onTxConfirmed (txHash bridgeAddress : String) (acc : Option String) :
    ConfirmedOutcome :=
  { txSubmitted := false
    showSuccess := true
    depositUrl := "https://etherscan.io/tx/" ++ txHash
    immediateCalls := []
    scheduledTasks :=
      [{ delayMs := 30000
         calls := PoolCall.updatePool bridgeAddress ::
           (match acc with
            | some a => [PoolCall.updateUser a bridgeAddress]
            | none => []) }] }

/-- `toWeiSafe("0.1")` with the default 18 decimals: the fixed gas
reserve subtracted by the max button for ETH. -/
def removeApproxMaxGas : Nat := (toWeiSafe "0.1" 18).getD 0

/-- The max-button click (lines 178-188), expressed at the smallest-unit
level: for ETH the amount set is `balance.sub(removeApproxMaxGas)`
(ethers BigNumbers are signed, so the difference may be negative); for
any other asset it is the balance itself. -/
def maxButtonClickWei (symbol : String) (balance : Int) : Int :=
  if symbol = "ETH" then balance - (removeApproxMaxGas : Int) else balance

end AddLiquidity

namespace TransactionsView

/-- C1 counterexample: with the session state for account `0xB` (snapshots
cleared by the switch away from `0xA`), a `TransfersUpdated` event for the
non-matching account `0xA` still changes the filled snapshot — the handler
has no account-match guard, so the claimed ignore-on-mismatch is false. -/
theorem C1_noAccountGuard_cex :
    sessionBState.account = some "0xB"
    ∧ "0xA" ≠ "0xB"
    ∧ (onTransfersUpdated cexClient "0xA" sessionBState).rawFilledTx
        ≠ sessionBState.rawFilledTx := by
  decide

/-- C1 (amended): the `TransfersUpdated` handler applies every update
unconditionally — it replaces both snapshots with the client's lists for
the update's own depositor address and clears the loading flag, and its
result does not depend on the session's current account. -/
theorem C1_updateIgnoresSessionAccount (txClient : TxClient)
    (depositorAddr : String) (s : ViewState) (a : Option String) :
    (onTransfersUpdated txClient depositorAddr s).rawFilledTx
        = txClient.getFilledTransfers depositorAddr
    ∧ (onTransfersUpdated txClient depositorAddr s).rawOngoingTx
        = txClient.getPendingTransfers depositorAddr
    ∧ (onTransfersUpdated txClient depositorAddr s).initialLoading = false
    ∧ (onTransfersUpdated txClient depositorAddr { s with account := a }).rawFilledTx
        = (onTransfersUpdated txClient depositorAddr s).rawFilledTx
    ∧ (onTransfersUpdated txClient depositorAddr { s with account := a }).rawOngoingTx
        = (onTransfersUpdated txClient depositorAddr s).rawOngoingTx :=
  ⟨rfl, rfl, rfl, rfl, rfl⟩

/-- C3 counterexample: changing the account from `0xA` to `0xB` while
timeout handle 0 is armed issues the fetch-stop request while handle 0 is
still armed (not synchronously disarmed), and after the new handle 1 is
armed both handles are live — two deadline timers armed at once. -/
theorem C3_twoTimersArmedCex :
    (accountChange "0xA" "0xB" 1 sessionAState).cleanupReqs
        = [ClientReq.stopFetching "0xA"]
    ∧ (accountChange "0xA" "0xB" 1 sessionAState).afterAccountCleanup.armedTimers
        = [0]
    ∧ (accountChange "0xA" "0xB" 1 sessionAState).afterStart.armedTimers
        = [1, 0] := by
  decide

/-- C3 (amended): on an account change the fetch-stop is issued while the
old deadline timer is still armed; the old timer is disarmed only by the
timer-keyed cleanup after the new timer is armed, leaving a transient
state with two armed timers; once the change completes exactly the new
timer remains armed.  On unmount the cleanup pass issues the fetch-stop
and disarms the current timer. -/
theorem C3_timerDisarmOrder (oldAcct newAcct : String) (newTid t : Nat)
    (s : ViewState) (ht : s.timer = some t) (ha : s.armedTimers = [t])
    (hne : (newTid == t) = false) :
    (accountChange oldAcct newAcct newTid s).cleanupReqs
        = [ClientReq.stopFetching oldAcct]
    ∧ (accountChange oldAcct newAcct newTid s).afterAccountCleanup.armedTimers = [t]
    ∧ (accountChange oldAcct newAcct newTid s).afterStart.armedTimers = [newTid, t]
    ∧ (accountChange oldAcct newAcct newTid s).afterTimerCleanup.armedTimers = [newTid]
    ∧ (unmount oldAcct s).1.armedTimers = []
    ∧ (unmount oldAcct s).2 = [ClientReq.stopFetching oldAcct] := by
  simp [accountChange, unmount, accountCleanup, startEffect, timerCleanup,
    ht, ha, List.filter, bne, hne]

/-- Witness for C3_timerDisarmOrder at the concrete session for `0xA` with
armed handle 0 and new handle 1. -/
theorem C3_timerDisarmOrder_witness :
    (accountChange "0xA" "0xB" 1 sessionAState).afterTimerCleanup.armedTimers = [1]
    ∧ (unmount "0xA" sessionAState).1.armedTimers = [] :=
  ⟨(C3_timerDisarmOrder "0xA" "0xB" 1 0 sessionAState rfl rfl rfl).2.2.2.1,
   (C3_timerDisarmOrder "0xA" "0xB" 1 0 sessionAState rfl rfl rfl).2.2.2.2.1⟩

/-- C4 counterexample: when `startFetchingTransfers` rejects, the catch
handler only logs — the session does not crash and the error is logged,
but `initialLoading` is not cleared (it stays `true`), contradicting the
claim that the failure clears the initial-loading flag. -/
theorem C4_loadingNotClearedCex :
    (startEffect "0xA" 0 true sessionAState).crashed = false
    ∧ (startEffect "0xA" 0 true sessionAState).errorLogged = true
    ∧ (startEffect "0xA" 0 true sessionAState).state.initialLoading ≠ false := by
  decide

/-- C4 (amended): a failure of the fetch/subscribe request is caught (the
session does not crash) and logged, the start-fetch request having been
issued; the initial-loading flag is not cleared by the failure — it
remains `true` until a transfers-update event arrives. -/
theorem C4_fetchFailureCaughtLogged (account : String) (tid : Nat)
    (s : ViewState) :
    (startEffect account tid true s).crashed = false
    ∧ (startEffect account tid true s).errorLogged = true
    ∧ (startEffect account tid true s).reqs = [ClientReq.startFetching account]
    ∧ (startEffect account tid true s).state.initialLoading = true :=
  ⟨rfl, rfl, rfl, rfl⟩

/-- C5: when the 5-minute deadline fires before any stop, the callback
issues exactly one stop-fetching request to the client and leaves the
filled snapshot, the pending snapshot, the account and the loading flag
unchanged — the last known view is retained. -/
theorem C5_deadlineRetainsSnapshots (account : String) (tid : Nat)
    (s : ViewState) :
    (deadlineFire account tid s).2 = [ClientReq.stopFetching account]
    ∧ (deadlineFire account tid s).1.rawFilledTx = s.rawFilledTx
    ∧ (deadlineFire account tid s).1.rawOngoingTx = s.rawOngoingTx
    ∧ (deadlineFire account tid s).1.account = s.account
    ∧ (deadlineFire account tid s).1.initialLoading = s.initialLoading :=
  ⟨rfl, rfl, rfl, rfl, rfl⟩

/-- C10: the initial page size is 10 when the persisted store yields
`undefined` or the falsy number 0, and the stored value otherwise. -/
theorem C10_pageSizeInit (v : Int) (hv : v ≠ 0) :
    initialPageSize none = 10
    ∧ initialPageSize (some 0) = 10
    ∧ initialPageSize (some v) = v := by
  refine ⟨rfl, rfl, ?_⟩
  simp [initialPageSize, jsOrDefault, hv]

/-- Witness for C10_pageSizeInit at stored value 25. -/
theorem C10_pageSizeInit_witness : initialPageSize (some 25) = 25 :=
  (C10_pageSizeInit 25 (by decide)).2.2

end TransactionsView

namespace AddLiquidity

/-- C2 counterexample: with the flag previously `true`, an allowance of
100 against a balance of 100 (allowance not below the covered amount)
leaves the flag `true` — the check never sets the flag back to `false`,
contradicting the claim that a sufficient allowance sets it `false`. -/
theorem C2_allowanceNotClearedCex :
    100 ≤ 100
    ∧ checkIfUserHasToApprove true true (some 100) 100 true ≠ false := by
  decide

/-- C2 (amended): with a signer and an account, the allowance check can
only raise the needs-approval flag: the result equals the prior value
or-ed with (query succeeded and allowance below the balance, the amount
the check covers); a failed query and an insufficient comparison both
leave the prior value; for the native asset ETH the guarding effect never
runs the check, so the flag keeps its prior value. -/
theorem C2_allowanceMonotone (sg ac conn : Bool) (al : Option Nat)
    (bal : Nat) (prev : Bool) :
    checkIfUserHasToApprove sg ac al bal prev
      = (prev || (sg && ac && al.elim false (fun a => decide (a < bal))))
    ∧ allowanceEffect conn "ETH" sg ac al bal prev = prev := by
  constructor
  · cases al with
    | none => cases sg <;> cases ac <;> cases prev <;>
        simp [checkIfUserHasToApprove]
    | some a =>
      by_cases h : a < bal <;>
        cases sg <;> cases ac <;> cases prev <;>
          simp [checkIfUserHasToApprove, h]
  · have h : (("ETH" : String) != "ETH") = false := by decide
    simp [allowanceEffect, h]

/-- C6 counterexample: for ETH with balance 0 the max button sets the
amount to balance minus the 0.1 ETH gas reserve, which is negative —
the claim that the result is never negative is false. -/
theorem C6_negativeMaxCex :
    maxButtonClickWei "ETH" 0 = -100000000000000000
    ∧ maxButtonClickWei "ETH" 0 < 0 := by
  decide

/-- C6 (amended): for ETH the max button subtracts the fixed gas reserve
`toWeiSafe("0.1")` (with 18 decimals) from the balance before converting;
the resulting amount is nonnegative exactly when the balance covers the
reserve — for balances below 0.1 ETH the amount set is negative. -/
theorem C6_maxAmountGasReserve (balance : Int) :
    maxButtonClickWei "ETH" balance = balance - (removeApproxMaxGas : Int)
    ∧ (0 ≤ maxButtonClickWei "ETH" balance
        ↔ (removeApproxMaxGas : Int) ≤ balance)
    ∧ removeApproxMaxGas = (toWeiSafe "0.1" 18).getD 0 := by
  refine ⟨rfl, ?_, rfl⟩
  rw [show maxButtonClickWei "ETH" balance
      = balance - (removeApproxMaxGas : Int) from rfl]
  exact Int.sub_nonneg

/-- C7: whenever the click handler dispatches an approval request, the
requested amount is exactly 2^256 - 1 (`INFINITE_APPROVAL_AMOUNT`),
whatever amount string the user entered and whatever amount the
submission path would convert. -/
theorem C7_infiniteApproval (providerPresent isConnected needsApprove
    signerPresent : Bool) (amount : String) (decimals : Nat)
    (symbol bridgeAddress : String) (r : ApproveRequest)
    (h : approveOrPoolTransactionHandler providerPresent isConnected
          needsApprove signerPresent amount decimals symbol bridgeAddress
        = HandlerAction.approveReq r) :
    r.amount = 2 ^ 256 - 1 := by
  unfold approveOrPoolTransactionHandler at h
  split at h
  · cases h
  · split at h
    · cases h
      rfl
    · split at h
      · split at h
        · split at h <;> cases h
        · cases h
      · cases h

/-- Witness for C7_infiniteApproval: a connected account that needs
approval, entered amount "5", bridge `0xBridge`. -/
theorem C7_infiniteApproval_witness :
    (handleApproveRequest "0xBridge").amount = 2 ^ 256 - 1 :=
  C7_infiniteApproval true true true true "5" 18 "DAI" "0xBridge"
    (handleApproveRequest "0xBridge") rfl

/-- C8: on the submission path (provider present, no approval needed),
when the amount passes the `Number(amount) > 0` guard with a connected
signer and converts at the asset's decimals, the handler calls the
native-liquidity entry point exactly when the symbol is ETH and the
token-liquidity entry point otherwise; the non-numeric amount "abc" leads
to no action at all; and in general a liquidity entry point is reached
only when connected with a positive numeric amount and a signer. -/
theorem C8_submitDispatch (amount : String) (decimals : Nat)
    (symbol bridgeAddress : String) (w : Nat) (p2 c2 a2 s2 : Bool)
    (am2 sy2 b2 : String) (d2 : Nat)
    (hpos : jsNumberPos amount = true)
    (hw : toWeiSafe amount decimals = some w) :
    approveOrPoolTransactionHandler true true false true amount decimals
        symbol bridgeAddress
      = (if symbol = "ETH" then HandlerAction.addEthLiquidity w
         else HandlerAction.addTokenLiquidity w)
    ∧ approveOrPoolTransactionHandler true c2 false s2 "abc" d2 sy2 b2
        = HandlerAction.noop
    ∧ (!(isLiquidityCall (approveOrPoolTransactionHandler p2 c2 a2 s2 am2
          d2 sy2 b2))
        || (c2 && jsNumberPos am2 && s2)) = true := by
  refine ⟨?_, ?_, ?_⟩
  · simp [approveOrPoolTransactionHandler, hpos, hw]
  · have habc : jsNumberPos "abc" = false := by decide
    simp [approveOrPoolTransactionHandler, habc]
  · unfold approveOrPoolTransactionHandler
    split
    · rfl
    · split
      · rfl
      · split
        · rename_i hg
          simp only [hg, Bool.or_true]
        · rfl

/-- Witness for C8_submitDispatch: amount "1.5" at 18 decimals converts
to exactly 1500000000000000000 base units and dispatches to the
native-liquidity entry point for ETH; "abc" yields no action. -/
theorem C8_submitDispatch_witness :
    approveOrPoolTransactionHandler true true false true "1.5" 18 "ETH"
        "0xBridge"
      = (if "ETH" = "ETH" then HandlerAction.addEthLiquidity 1500000000000000000
         else HandlerAction.addTokenLiquidity 1500000000000000000)
    ∧ approveOrPoolTransactionHandler true true false true "abc" 18 "ETH"
        "0xBridge" = HandlerAction.noop
    ∧ (!(isLiquidityCall (approveOrPoolTransactionHandler true true true
          true "2" 18 "ETH" "0xBridge"))
        || (true && jsNumberPos "2" && true)) = true :=
  C8_submitDispatch "1.5" 18 "ETH" "0xBridge" 1500000000000000000 true true
    true true "2" "ETH" "0xBridge" 18 (by decide) (by decide)

/-- C9: the `txConfirmed` listener flips to the confirmed/success state
(`showSuccess` set, `txSubmitted` cleared), exposes the deposit URL built
from the transaction hash, makes no pool call directly, and schedules the
pool/user refresh with a delay of exactly 30000 milliseconds. -/
theorem C9_confirmationEffects (txHash bridgeAddress : String)
    (acc : Option String) :
    (onTxConfirmed txHash bridgeAddress acc).showSuccess = true
    ∧ (onTxConfirmed txHash bridgeAddress acc).txSubmitted = false
    ∧ (onTxConfirmed txHash bridgeAddress acc).depositUrl
        = "https://etherscan.io/tx/" ++ txHash
    ∧ (onTxConfirmed txHash bridgeAddress acc).immediateCalls = []
    ∧ ((onTxConfirmed txHash bridgeAddress acc).scheduledTasks.all
        (fun task => task.delayMs == 30000)) = true
    ∧ ∃ task ∈ (onTxConfirmed txHash bridgeAddress acc).scheduledTasks,
        PoolCall.updatePool bridgeAddress ∈ task.calls := by
  refine ⟨rfl, rfl, rfl, rfl, rfl, ?_⟩
  exact ⟨_, List.mem_singleton.mpr rfl, List.mem_cons_self _ _⟩

end AddLiquidity
